import Mathlib

/-!
Verification of the Facecloud policy and envelope evaluation kernel.

The Rust sources are embedded shallowly.  Rust `f32` is modelled by `F32`
below: a value is either NaN or a finite rational.  Infinities and signed
zero are not modelled; every code path the theorems touch guards its
division by a strict positivity test, so division by zero is unreachable
and is mapped to NaN.  Float literals of the source (1.0, 0.8, 0.9, 1.1)
are taken at their exact rational value.
-/

/-- Model of Rust `f32`: NaN or a finite rational value. -/
inductive F32 where
  | nan : F32
  | fin : ℚ → F32
deriving DecidableEq

/-- Rust `<=` on f32: false whenever either side is NaN. -/
def F32.le : F32 → F32 → Bool
  | .fin a, .fin b => a ≤ b
  | _, _ => false

/-- Rust `<` on f32: false whenever either side is NaN. -/
def F32.lt : F32 → F32 → Bool
  | .fin a, .fin b => a < b
  | _, _ => false

/-- Rust `/` on f32; NaN propagates.  Division by zero (unreachable under
the source's positivity guards) is mapped to NaN. -/
def F32.div : F32 → F32 → F32
  | .fin a, .fin b => if b = 0 then .nan else .fin (a / b)
  | _, _ => .nan

/-- Rust `+` on f32; NaN propagates. -/
def F32.add : F32 → F32 → F32
  | .fin a, .fin b => .fin (a + b)
  | _, _ => .nan

/-- Rust `-` on f32; NaN propagates. -/
def F32.sub : F32 → F32 → F32
  | .fin a, .fin b => .fin (a - b)
  | _, _ => .nan

/-- Rust `f32::min`: when one argument is NaN the other is returned. -/
def F32.fmin : F32 → F32 → F32
  | .nan, y => y
  | x, .nan => x
  | .fin a, .fin b => if a ≤ b then .fin a else .fin b

/-- Rust `f32::max`: when one argument is NaN the other is returned. -/
def F32.fmax : F32 → F32 → F32
  | .nan, y => y
  | x, .nan => x
  | .fin a, .fin b => if a ≤ b then .fin b else .fin a

/-- Rust `f32::clamp(0.0, 1.0)`: NaN stays NaN, a finite value below 0 is
raised to 0, one above 1 is lowered to 1. -/
def F32.clamp01 : F32 → F32
  | .nan => .nan
  | .fin a => if a < 0 then .fin 0 else if 1 < a then .fin 1 else .fin a

theorem F32.le_true_not_lt (a b : F32) (h : F32.le a b = true) : F32.lt b a = false := by
  cases a <;> cases b <;> simp_all [F32.le, F32.lt]

theorem F32.le_trans_true (a b c : F32) (hab : F32.le a b = true) (hbc : F32.le b c = true) :
    F32.le a c = true := by
  cases a <;> cases b <;> cases c <;> simp_all [F32.le]
  exact le_trans hab hbc

/-! ## facecloud-core/src/neuromorphic/signals.rs -/

/-- Normalized biomechanical density of non-organic material per tissue volume. -/
structure MechDensity where
  val : F32
deriving DecidableEq

/-- Normalized interface coherence: 1.0 = crisp boundary, 0.0 = fully blurred. -/
structure InterfaceCoherence where
  val : F32
deriving DecidableEq

/-- Normalized EM field intensity at the interface. -/
structure EmFieldIntensity where
  val : F32
deriving DecidableEq

/-- Normalized thermal load. -/
structure ThermalLoad where
  val : F32
deriving DecidableEq

/-- Normalized systemic inflammation marker. -/
structure InflammationIndex where
  val : F32
deriving DecidableEq

/-- Normalized neuromorphic spike energy proxy. -/
structure SpikeEnergy where
  val : F32
deriving DecidableEq

/-- Telemetry bundle used by the envelope. -/
structure InterfaceTelemetry where
  mech_density : MechDensity
  interface_coherence : InterfaceCoherence
  em_field : EmFieldIntensity
  thermal_load : ThermalLoad
  inflammation : InflammationIndex
  spike_energy : SpikeEnergy
deriving DecidableEq

/-- Salience index: how urgently monitoring should surface a warning. -/
structure Salience where
  val : F32
deriving DecidableEq

/-! ## facecloud-core/src/neuromorphic/envelope.rs -/

/-- Safety margins for each constraint; 1.0 = just-safe, above 1.0 = margin. -/
structure ConstraintMargins where
  mech_density_margin : F32
  interface_coherence_margin : F32
  em_field_margin : F32
  thermal_margin : F32
  inflammation_margin : F32
  spike_energy_margin : F32
deriving DecidableEq

/-- Composite margin: the chained `f32::min` of the six margins, in source order. -/
def ConstraintMargins.composite (m : ConstraintMargins) : F32 :=
  ((((m.mech_density_margin.fmin m.interface_coherence_margin).fmin
      m.em_field_margin).fmin m.thermal_margin).fmin
      m.inflammation_margin).fmin m.spike_energy_margin

/-- High-level scalar status of an envelope evaluation. -/
inductive EnvelopeStatus where
  | Safe : EnvelopeStatus
  | Caution : EnvelopeStatus
  | HardDeny : EnvelopeStatus
deriving DecidableEq

/-- Result record of `EnvelopeConfig::evaluate`. -/
structure EnvelopeEvaluation where
  margins : ConstraintMargins
  composite_margin : F32
  status : EnvelopeStatus
  salience : Salience
deriving DecidableEq

/-- Envelope thresholds; a plain struct with public fields in the source
(no validating constructor exists there). -/
structure EnvelopeConfig where
  mech_density_max : F32
  interface_coherence_min : F32
  em_field_max : F32
  thermal_max : F32
  inflammation_max : F32
  spike_energy_max : F32
  caution_lower : F32
  caution_upper : F32
deriving DecidableEq

/-- The `Default` impl of `EnvelopeConfig`. -/
def EnvelopeConfig.default : EnvelopeConfig :=
  ⟨.fin 1, .fin (4/5), .fin 1, .fin 1, .fin 1, .fin 1, .fin 1, .fin (11/10)⟩

/-- Margin for mechanical density: 2.0 when the reading is at most zero,
otherwise `mech_density_max / value`. -/
def EnvelopeConfig.mech_density_margin (cfg : EnvelopeConfig) (d : MechDensity) : F32 :=
  if d.val.le (.fin 0) then .fin 2 else cfg.mech_density_max.div d.val

/-- Margin for interface coherence (lower-bounded): 0.0 when the reading is
at most zero, otherwise `value / interface_coherence_min`. -/
def EnvelopeConfig.interface_coherence_margin (cfg : EnvelopeConfig) (c : InterfaceCoherence) : F32 :=
  if c.val.le (.fin 0) then .fin 0 else c.val.div cfg.interface_coherence_min

/-- Margin for the remaining upper-bounded quantities: `max` itself when the
reading is at most zero, otherwise `max / value`. -/
def EnvelopeConfig.upper_bounded_margin (_cfg : EnvelopeConfig) (value max : F32) : F32 :=
  if value.le (.fin 0) then max else max.div value

/-- `EnvelopeConfig::evaluate`, translated clause for clause from the source. -/
def EnvelopeConfig.evaluate (cfg : EnvelopeConfig) (telemetry : InterfaceTelemetry) :
    EnvelopeEvaluation :=
  let mech_density_margin := cfg.mech_density_margin telemetry.mech_density
  let interface_coherence_margin := cfg.interface_coherence_margin telemetry.interface_coherence
  let em_field_margin := cfg.upper_bounded_margin telemetry.em_field.val cfg.em_field_max
  let thermal_margin := cfg.upper_bounded_margin telemetry.thermal_load.val cfg.thermal_max
  let inflammation_margin := cfg.upper_bounded_margin telemetry.inflammation.val cfg.inflammation_max
  let spike_energy_margin := cfg.upper_bounded_margin telemetry.spike_energy.val cfg.spike_energy_max
  let margins : ConstraintMargins :=
    ⟨mech_density_margin, interface_coherence_margin, em_field_margin,
      thermal_margin, inflammation_margin, spike_energy_margin⟩
  let composite_margin := margins.composite
  let status :=
    if composite_margin.lt cfg.caution_lower then EnvelopeStatus.HardDeny
    else if composite_margin.lt cfg.caution_upper then EnvelopeStatus.Caution
    else EnvelopeStatus.Safe
  let salience : Salience := ⟨(cfg.caution_upper.sub composite_margin).fmax (.fin 0)⟩
  ⟨margins, composite_margin, status, salience⟩

/-- Telemetry with a zero EM-field reading and benign values elsewhere;
used to exhibit the zero-reading behaviour of the upper-bounded margins. -/
def telZero : InterfaceTelemetry :=
  ⟨⟨.fin (1/2)⟩, ⟨.fin 1⟩, ⟨.fin 0⟩, ⟨.fin (1/2)⟩, ⟨.fin (1/2)⟩, ⟨.fin (1/2)⟩⟩

/-- An envelope config whose caution band is inverted (`caution_lower` above
`caution_upper`); constructible because every field of the source struct is
public and no validating constructor exists. -/
def cfgInverted : EnvelopeConfig :=
  ⟨.fin 1, .fin (4/5), .fin 1, .fin 1, .fin 1, .fin 1, .fin 2, .fin 1⟩

/-- Telemetry whose six margins under `cfgInverted` are all 3/2. -/
def telMid : InterfaceTelemetry :=
  ⟨⟨.fin (2/3)⟩, ⟨.fin (6/5)⟩, ⟨.fin (2/3)⟩, ⟨.fin (2/3)⟩, ⟨.fin (2/3)⟩, ⟨.fin (2/3)⟩⟩

/-- Projection of the status classifier out of `evaluate`: the source's
if-chain over the composite margin. -/
theorem envelope_status_spec (cfg : EnvelopeConfig) (tel : InterfaceTelemetry) :
    (cfg.evaluate tel).status =
      if ((cfg.evaluate tel).composite_margin.lt cfg.caution_lower) then EnvelopeStatus.HardDeny
      else if ((cfg.evaluate tel).composite_margin.lt cfg.caution_upper) then EnvelopeStatus.Caution
      else EnvelopeStatus.Safe := rfl

/-- C1 (counterexample): with the default config, a zero EM-field reading
yields an EM margin of 1.0 (the configured `em_field_max`), not the claimed
fixed constant 2.0. -/
theorem c1_zero_reading_counterexample :
    telZero.em_field.val = F32.fin 0 ∧
    (EnvelopeConfig.default.evaluate telZero).margins.em_field_margin = F32.fin 1 ∧
    (EnvelopeConfig.default.evaluate telZero).margins.em_field_margin ≠ F32.fin 2 := by
  refine ⟨rfl, ?_, ?_⟩ <;>
    norm_num [EnvelopeConfig.default, telZero, EnvelopeConfig.evaluate,
      EnvelopeConfig.mech_density_margin, EnvelopeConfig.interface_coherence_margin,
      EnvelopeConfig.upper_bounded_margin, F32.le, F32.div]

/-- C1 (amended): for the mechanical-density dimension the margin is
`max / value` when `value > 0` and the fixed constant 2.0 when `value <= 0`;
for the four other upper-bounded dimensions (EM field, thermal load,
inflammation, spike energy) the margin is `max / value` when `value > 0` and
the dimension's configured `max` itself (not 2.0) when `value <= 0`. -/
theorem c1_upper_bounded_margins (cfg : EnvelopeConfig) (tel : InterfaceTelemetry) :
    ((cfg.evaluate tel).margins.mech_density_margin =
      if (tel.mech_density.val.le (F32.fin 0)) then F32.fin 2
      else cfg.mech_density_max.div tel.mech_density.val) ∧
    ((cfg.evaluate tel).margins.em_field_margin =
      if (tel.em_field.val.le (F32.fin 0)) then cfg.em_field_max
      else cfg.em_field_max.div tel.em_field.val) ∧
    ((cfg.evaluate tel).margins.thermal_margin =
      if (tel.thermal_load.val.le (F32.fin 0)) then cfg.thermal_max
      else cfg.thermal_max.div tel.thermal_load.val) ∧
    ((cfg.evaluate tel).margins.inflammation_margin =
      if (tel.inflammation.val.le (F32.fin 0)) then cfg.inflammation_max
      else cfg.inflammation_max.div tel.inflammation.val) ∧
    ((cfg.evaluate tel).margins.spike_energy_margin =
      if (tel.spike_energy.val.le (F32.fin 0)) then cfg.spike_energy_max
      else cfg.spike_energy_max.div tel.spike_energy.val) :=
  ⟨rfl, rfl, rfl, rfl, rfl⟩

/-- C2 (counterexample): with an inverted caution band (`caution_lower` = 2.0
above `caution_upper` = 1.0, constructible since no validation exists) a
composite margin of 3/2 satisfies `composite >= caution_upper` yet the status
is HardDeny, not Safe. -/
theorem c2_inverted_band_counterexample :
    (cfgInverted.caution_upper.le ((cfgInverted.evaluate telMid).composite_margin)) = true ∧
    (cfgInverted.evaluate telMid).status ≠ EnvelopeStatus.Safe := by
  have hst : (cfgInverted.evaluate telMid).status = EnvelopeStatus.HardDeny := by
    norm_num [cfgInverted, telMid, EnvelopeConfig.evaluate,
      EnvelopeConfig.mech_density_margin, EnvelopeConfig.interface_coherence_margin,
      EnvelopeConfig.upper_bounded_margin, ConstraintMargins.composite,
      F32.le, F32.lt, F32.div, F32.fmin]
  refine ⟨?_, by rw [hst]; decide⟩
  norm_num [cfgInverted, telMid, EnvelopeConfig.evaluate,
    EnvelopeConfig.mech_density_margin, EnvelopeConfig.interface_coherence_margin,
    EnvelopeConfig.upper_bounded_margin, ConstraintMargins.composite,
    F32.le, F32.lt, F32.div, F32.fmin]

/-- C2 (amended): `evaluate` returns `composite_margin` equal to the minimum
of the six per-dimension margins; the status is HardDeny whenever
`composite < caution_lower`, Caution whenever
`caution_lower <= composite < caution_upper`, and — provided the caution band
is well-formed, `caution_lower <= caution_upper` — Safe whenever
`composite >= caution_upper`. -/
theorem c2_composite_and_status (cfg : EnvelopeConfig) (tel : InterfaceTelemetry) :
    ((cfg.evaluate tel).composite_margin = (cfg.evaluate tel).margins.composite) ∧
    (((cfg.evaluate tel).composite_margin.lt cfg.caution_lower) = true →
      (cfg.evaluate tel).status = EnvelopeStatus.HardDeny) ∧
    ((cfg.caution_lower.le ((cfg.evaluate tel).composite_margin)) = true →
      ((cfg.evaluate tel).composite_margin.lt cfg.caution_upper) = true →
      (cfg.evaluate tel).status = EnvelopeStatus.Caution) ∧
    ((cfg.caution_lower.le cfg.caution_upper) = true →
      (cfg.caution_upper.le ((cfg.evaluate tel).composite_margin)) = true →
      (cfg.evaluate tel).status = EnvelopeStatus.Safe) := by
  refine ⟨rfl, ?_, ?_, ?_⟩
  · intro h
    rw [envelope_status_spec, h]
    rfl
  · intro h1 h2
    rw [envelope_status_spec, F32.le_true_not_lt _ _ h1, h2]
    rfl
  · intro h0 h1
    rw [envelope_status_spec, F32.le_true_not_lt _ _ (F32.le_trans_true _ _ _ h0 h1),
      F32.le_true_not_lt _ _ h1]
    rfl

/-- C3 (code evaluation at the failing input): an `EnvelopeConfig` whose
`caution_lower` (2.0) exceeds its `caution_upper` (1.0) is obtainable through
the public interface — every field of the struct is public and the source has
no validating constructor — and `evaluate` accepts it without any error. -/
theorem c3_inverted_band_accepted :
    (cfgInverted.caution_upper.lt cfgInverted.caution_lower) = true ∧
    (cfgInverted.evaluate telMid).status = EnvelopeStatus.HardDeny := by
  constructor <;>
    norm_num [cfgInverted, telMid, EnvelopeConfig.evaluate,
      EnvelopeConfig.mech_density_margin, EnvelopeConfig.interface_coherence_margin,
      EnvelopeConfig.upper_bounded_margin, ConstraintMargins.composite,
      F32.le, F32.lt, F32.div, F32.fmin]

/-! ## crates/eco-corridor-core/src/indigenous_corridor.rs
`SystemTime` is modelled as a natural number of time units; the claims only
test timestamps for presence, never compare them. -/

/-- DID-like corridor identity; equality is exact string equality. -/
structure CorridorId where
  val : String
deriving DecidableEq

/-- Normalized scalar meant to stay in 0.0 to 1.0; 1.0 = least harm. -/
structure EcoScalar where
  val : F32
deriving DecidableEq

/-- `EcoScalar::new`: accepts exactly the values the Rust range test
`(0.0..=1.0).contains(&value)` accepts; NaN fails both comparisons. -/
def EcoScalar.new (value : F32) : Except String EcoScalar :=
  if ((F32.fin 0).le value && value.le (F32.fin 1)) then Except.ok ⟨value⟩
  else Except.error ("EcoScalar must be within [0.0, 1.0]")

/-- Biophysical heartbeat of the corridor: four normalized scores. -/
structure EcoImpactMetrics where
  soil_health : EcoScalar
  water_quality : EcoScalar
  microbiome_diversity : EcoScalar
  corridor_resilience : EcoScalar
deriving DecidableEq

/-- `EcoImpactMetrics::aggregate_score`: the clamped mean of the four scores. -/
def EcoImpactMetrics.aggregate_score (m : EcoImpactMetrics) : EcoScalar :=
  ⟨((((m.soil_health.val.add m.water_quality.val).add
      m.microbiome_diversity.val).add m.corridor_resilience.val).div (F32.fin 4)).clamp01⟩

/-- Status of a verifiable consent credential. -/
inductive ConsentStatus where
  | Granted : ConsentStatus
  | Revoked : ConsentStatus
  | Pending : ConsentStatus
deriving DecidableEq

/-- Minimal verifiable consent capsule. -/
structure VerifiableConsent where
  issuer_did : String
  subject_corridor_id : String
  status : ConsentStatus
  issued_at : Nat
  revoked_at : Option Nat
  signature_hex : String
deriving DecidableEq

/-- `VerifiableConsent::is_effectively_granted`: true only if the status is
Granted and no revocation timestamp is present. -/
def VerifiableConsent.is_effectively_granted (vc : VerifiableConsent) : Bool :=
  vc.status == ConsentStatus.Granted && vc.revoked_at.isNone

/-- Neurorights-sensitive capabilities within the corridor. -/
inductive NeurorightsFlag where
  | ForbidFearPainCoercion : NeurorightsFlag
  | NoMentalManipulation : NeurorightsFlag
  | NoCovertInference : NeurorightsFlag
deriving DecidableEq

/-- Container for neurorights constraints. -/
structure NeurorightsFlags where
  inner : List NeurorightsFlag
deriving DecidableEq

/-- `NeurorightsFlags::contains`. -/
def NeurorightsFlags.contains (fs : NeurorightsFlags) (flag : NeurorightsFlag) : Bool :=
  fs.inner.any (fun f => f == flag)

/-- Corridor record: identity, metrics, consent snapshot, rights flags. -/
structure IndigenousEcoCorridorMap where
  corridor_id : CorridorId
  eco_metrics : EcoImpactMetrics
  fpic_ids_state : Option VerifiableConsent
  neurorights_flags : NeurorightsFlags
deriving DecidableEq

/-- Description of a proposed action to be checked against a corridor record. -/
structure CorridorActionRequest where
  corridor_id : CorridorId
  required_min_eco_score : F32
  high_impact : Bool
  may_use_fear_pain_channels : Bool
  may_infer_mental_state : Bool
  may_attempt_belief_shaping : Bool
deriving DecidableEq

/-- `IndigenousEcoCorridorMap::check_preconditions`: the source's early-return
chain, written in the `Except` monad.  The eco-guard's denial message
interpolates the two numeric values in the source; that interpolation is
elided here since no claim depends on the message's text. -/
def IndigenousEcoCorridorMap.check_preconditions (m : IndigenousEcoCorridorMap)
    (request : CorridorActionRequest) : Except String Unit := do
  if request.corridor_id.val != m.corridor_id.val then
    throw ("Corridor mismatch: action corridor_id does not match map corridor_id")
  if (m.eco_metrics.aggregate_score.val.lt request.required_min_eco_score) then
    throw ("EcoImpact guard: required_min_eco_score exceeds corridor aggregate")
  if request.high_impact then
    match m.fpic_ids_state with
    | none =>
      throw ("FPIC/IDS guard: no consent credential present for high-impact action")
    | some vc =>
      if !vc.is_effectively_granted then
        throw ("FPIC/IDS guard: consent not granted or already revoked")
  if request.may_use_fear_pain_channels
      && m.neurorights_flags.contains NeurorightsFlag.ForbidFearPainCoercion then
    throw ("Neurorights guard: FEAR/PAIN channels are forbidden in this corridor")
  if request.may_infer_mental_state
      && m.neurorights_flags.contains NeurorightsFlag.NoCovertInference then
    throw ("Neurorights guard: covert mental-state inference is forbidden in this corridor")
  if request.may_attempt_belief_shaping
      && m.neurorights_flags.contains NeurorightsFlag.NoMentalManipulation then
    throw ("Neurorights guard: mental manipulation / belief-shaping is forbidden")
  return ()

/-- Guard 1 of `check_preconditions`, in isolation: corridor identity binding. -/
def identity_guard (m : IndigenousEcoCorridorMap) (request : CorridorActionRequest) :
    Except String Unit :=
  if request.corridor_id.val != m.corridor_id.val then
    Except.error ("Corridor mismatch: action corridor_id does not match map corridor_id")
  else Except.ok ()

/-- Guard 2 of `check_preconditions`, in isolation: the ecological threshold. -/
def eco_guard (m : IndigenousEcoCorridorMap) (request : CorridorActionRequest) :
    Except String Unit :=
  if (m.eco_metrics.aggregate_score.val.lt request.required_min_eco_score) then
    Except.error ("EcoImpact guard: required_min_eco_score exceeds corridor aggregate")
  else Except.ok ()

/-- Guard 3 of `check_preconditions`, in isolation: the FPIC/IDS consent gate,
evaluated only for high-impact requests. -/
def consent_guard (m : IndigenousEcoCorridorMap) (request : CorridorActionRequest) :
    Except String Unit :=
  if request.high_impact then
    match m.fpic_ids_state with
    | none =>
      Except.error ("FPIC/IDS guard: no consent credential present for high-impact action")
    | some vc =>
      if !vc.is_effectively_granted then
        Except.error ("FPIC/IDS guard: consent not granted or already revoked")
      else Except.ok ()
  else Except.ok ()

/-- Guard 4 of `check_preconditions`, in isolation: the neurorights guards. -/
def rights_guard (m : IndigenousEcoCorridorMap) (request : CorridorActionRequest) :
    Except String Unit :=
  if request.may_use_fear_pain_channels
      && m.neurorights_flags.contains NeurorightsFlag.ForbidFearPainCoercion then
    Except.error ("Neurorights guard: FEAR/PAIN channels are forbidden in this corridor")
  else if request.may_infer_mental_state
      && m.neurorights_flags.contains NeurorightsFlag.NoCovertInference then
    Except.error ("Neurorights guard: covert mental-state inference is forbidden in this corridor")
  else if request.may_attempt_belief_shaping
      && m.neurorights_flags.contains NeurorightsFlag.NoMentalManipulation then
    Except.error ("Neurorights guard: mental manipulation / belief-shaping is forbidden")
  else Except.ok ()

/-- The early-return body of `check_preconditions` equals the sequential,
short-circuiting composition of the four guards, in source order. -/
theorem check_preconditions_eq_guard_seq (m : IndigenousEcoCorridorMap)
    (r : CorridorActionRequest) :
    m.check_preconditions r =
      (identity_guard m r).bind (fun _ => (eco_guard m r).bind (fun _ =>
        (consent_guard m r).bind (fun _ => rights_guard m r))) := by
  simp only [IndigenousEcoCorridorMap.check_preconditions, identity_guard, eco_guard,
    consent_guard, rights_guard]
  cases hid : (r.corridor_id.val != m.corridor_id.val) <;>
    cases heco : (m.eco_metrics.aggregate_score.val.lt r.required_min_eco_score) <;>
      cases hhi : r.high_impact <;>
        rcases hfp : m.fpic_ids_state with _ | vc <;>
          simp_all [Except.bind, bind, pure, Except.pure, throw, throwThe, MonadExceptOf.throw]
  all_goals (cases hgr : vc.is_effectively_granted <;>
    simp_all [Except.bind, bind, pure, Except.pure])

/-- C4: a request whose corridor id differs from the record's is denied with
the corridor-mismatch reason regardless of every other request and record
field, and `check_preconditions` is the short-circuiting sequence of the four
guards in the fixed order identity, ecological threshold, consent, rights. -/
theorem c4_corridor_mismatch_short_circuit (m : IndigenousEcoCorridorMap)
    (r : CorridorActionRequest) :
    (r.corridor_id.val ≠ m.corridor_id.val →
      m.check_preconditions r =
        Except.error ("Corridor mismatch: action corridor_id does not match map corridor_id")) ∧
    (m.check_preconditions r =
      (identity_guard m r).bind (fun _ => (eco_guard m r).bind (fun _ =>
        (consent_guard m r).bind (fun _ => rights_guard m r)))) := by
  refine ⟨?_, check_preconditions_eq_guard_seq m r⟩
  intro h
  have hb : (r.corridor_id.val != m.corridor_id.val) = true := bne_iff_ne.mpr h
  rw [check_preconditions_eq_guard_seq]
  simp [identity_guard, hb, Except.bind]

/-- C5: the consent gate fires only on high-impact requests.  A high-impact
request with no consent credential is always denied; one whose credential is
not effectively granted (status not Granted, or a revocation timestamp
present) is always denied; a non-high-impact request with no credential
passes whenever the identity, ecological and rights guards pass, and its
outcome never depends on the consent snapshot at all. -/
theorem c5_consent_gate_high_impact_only (m : IndigenousEcoCorridorMap)
    (r : CorridorActionRequest) :
    (r.high_impact = true → m.fpic_ids_state = none →
      (m.check_preconditions r).isOk = false) ∧
    (∀ vc : VerifiableConsent, r.high_impact = true → m.fpic_ids_state = some vc →
      vc.is_effectively_granted = false → (m.check_preconditions r).isOk = false) ∧
    (∀ vc : VerifiableConsent, vc.is_effectively_granted = false ↔
      (vc.status ≠ ConsentStatus.Granted ∨ vc.revoked_at ≠ none)) ∧
    (r.high_impact = false → m.fpic_ids_state = none →
      identity_guard m r = Except.ok () → eco_guard m r = Except.ok () →
      rights_guard m r = Except.ok () → m.check_preconditions r = Except.ok ()) ∧
    (∀ s1 s2 : Option VerifiableConsent, r.high_impact = false →
      IndigenousEcoCorridorMap.check_preconditions { m with fpic_ids_state := s1 } r =
      IndigenousEcoCorridorMap.check_preconditions { m with fpic_ids_state := s2 } r) := by
  refine ⟨?_, ?_, ?_, ?_, ?_⟩
  · intro hhi hfp
    rw [check_preconditions_eq_guard_seq]
    rcases hig : identity_guard m r with e | u
    · simp [Except.bind, Except.isOk, Except.toBool]
    rcases heg : eco_guard m r with e | u
    · simp [Except.bind, Except.isOk, Except.toBool]
    simp [Except.bind, consent_guard, hhi, hfp, Except.isOk, Except.toBool]
  · intro vc hhi hfp hgr
    rw [check_preconditions_eq_guard_seq]
    rcases hig : identity_guard m r with e | u
    · simp [Except.bind, Except.isOk, Except.toBool]
    rcases heg : eco_guard m r with e | u
    · simp [Except.bind, Except.isOk, Except.toBool]
    simp [Except.bind, consent_guard, hhi, hfp, hgr, Except.isOk, Except.toBool]
  · intro vc
    rcases vc with ⟨i, s, st, ia, rv, sig⟩
    cases st <;> cases rv <;>
      simp [VerifiableConsent.is_effectively_granted, Option.isNone]
  · intro hhi _ hid heco hrg
    rw [check_preconditions_eq_guard_seq, hid, heco]
    simp [Except.bind, consent_guard, hhi, hrg]
  · intro s1 s2 hhi
    rw [check_preconditions_eq_guard_seq, check_preconditions_eq_guard_seq]
    simp [identity_guard, eco_guard, consent_guard, rights_guard, hhi]

/-! ## indigenous-eco-corridor-map/src/metrics.rs -/

/-- Normalized scalar of the metrics module, constrained to 0.0 to 1.0. -/
structure Score where
  val : F32
deriving DecidableEq

/-- `Score::new`: accepts exactly the values the Rust range test
`(0.0..=1.0).contains(&value)` accepts; NaN fails both comparisons. -/
def Score.new (value : F32) : Except String Score :=
  if ((F32.fin 0).le value && value.le (F32.fin 1)) then Except.ok ⟨value⟩
  else Except.error ("Score must be within [0.0, 1.0]")

/-- `Score::get`. -/
def Score.get (s : Score) : F32 := s.val

/-- `EcoScalar::value`. -/
def EcoScalar.value (s : EcoScalar) : F32 := s.val

/-- C6: every successfully constructed `Score` and `EcoScalar` holds a finite
value in 0.0 to 1.0, and construction fails for NaN and for every finite
value outside that range. -/
theorem c6_score_range_invariant (v : F32) :
    (∀ s : Score, Score.new v = Except.ok s →
      ∃ q : ℚ, s.get = F32.fin q ∧ 0 ≤ q ∧ q ≤ 1) ∧
    (v = F32.nan → (Score.new v).isOk = false) ∧
    (∀ q : ℚ, v = F32.fin q → (q < 0 ∨ 1 < q) → (Score.new v).isOk = false) ∧
    (∀ s : EcoScalar, EcoScalar.new v = Except.ok s →
      ∃ q : ℚ, s.value = F32.fin q ∧ 0 ≤ q ∧ q ≤ 1) ∧
    (v = F32.nan → (EcoScalar.new v).isOk = false) ∧
    (∀ q : ℚ, v = F32.fin q → (q < 0 ∨ 1 < q) → (EcoScalar.new v).isOk = false) := by
  refine ⟨?_, ?_, ?_, ?_, ?_, ?_⟩
  · intro s h
    cases v with
    | nan => simp [Score.new, F32.le] at h
    | fin q =>
      by_cases h0 : (0:ℚ) ≤ q
      · by_cases h1 : q ≤ 1
        · simp [Score.new, F32.le, h0, h1] at h
          exact ⟨q, by rw [← h]; rfl, h0, h1⟩
        · simp [Score.new, F32.le, h0, h1] at h
      · simp [Score.new, F32.le, h0] at h
  · intro hv
    subst hv
    simp [Score.new, F32.le, Except.isOk, Except.toBool]
  · intro q hv hout
    subst hv
    rcases hout with h | h
    · simp [Score.new, F32.le, not_le.mpr h, Except.isOk, Except.toBool]
    · simp [Score.new, F32.le, not_le.mpr h, Except.isOk, Except.toBool]
  · intro s h
    cases v with
    | nan => simp [EcoScalar.new, F32.le] at h
    | fin q =>
      by_cases h0 : (0:ℚ) ≤ q
      · by_cases h1 : q ≤ 1
        · simp [EcoScalar.new, F32.le, h0, h1] at h
          exact ⟨q, by rw [← h]; rfl, h0, h1⟩
        · simp [EcoScalar.new, F32.le, h0, h1] at h
      · simp [EcoScalar.new, F32.le, h0] at h
  · intro hv
    subst hv
    simp [EcoScalar.new, F32.le, Except.isOk, Except.toBool]
  · intro q hv hout
    subst hv
    rcases hout with h | h
    · simp [EcoScalar.new, F32.le, not_le.mpr h, Except.isOk, Except.toBool]
    · simp [EcoScalar.new, F32.le, not_le.mpr h, Except.isOk, Except.toBool]

/-! ## facecloud-dna-auth/src/mfa.rs
`Uuid` is modelled as a natural number; no claim inspects it. -/

/-- Abstract DNA-derived factor: metadata plus a confidence value. -/
structure DnaFactor where
  id : Nat
  hash_reference : String
  confidence : F32
deriving DecidableEq

/-- Knowledge factor (password-like). -/
structure KnowledgeFactor where
  present : Bool
deriving DecidableEq

/-- Possession factor (token-like). -/
structure PossessionFactor where
  present : Bool
deriving DecidableEq

/-- Context of the three authentication layers. -/
structure MultiLayerContext where
  knowledge : KnowledgeFactor
  possession : PossessionFactor
  dna : Option DnaFactor
deriving DecidableEq

/-- Authentication decision. -/
inductive AuthDecision where
  | Deny : AuthDecision
  | RequireAdditionalFactors : AuthDecision
  | Allow : AuthDecision
deriving DecidableEq

/-- Decision plus its fixed explanatory string. -/
structure AuthEvaluation where
  decision : AuthDecision
  explanation : String
deriving DecidableEq

/-- `evaluate_mfa`: the source's three-boolean decision table.  The biometric
boolean is `ctx.dna.map(confidence >= 0.9).unwrap_or(false)`: an absent factor
counts as a failing factor. -/
def evaluate_mfa (ctx : MultiLayerContext) : AuthEvaluation :=
  let has_knowledge := ctx.knowledge.present
  let has_possession := ctx.possession.present
  let dna_ok := (ctx.dna.map (fun d => (F32.fin (9/10)).le d.confidence)).getD false
  let decision :=
    match has_knowledge, has_possession, dna_ok with
    | true, true, true => AuthDecision.Allow
    | true, true, false => AuthDecision.RequireAdditionalFactors
    | _, _, _ => AuthDecision.Deny
  let explanation :=
    match decision with
    | AuthDecision.Allow =>
      "All three layers satisfied (knowledge, possession, DNA-like factor)."
    | AuthDecision.RequireAdditionalFactors =>
      "Knowledge and possession present; DNA-like factor insufficient or missing."
    | AuthDecision.Deny =>
      "Authentication factors incomplete; access denied by policy."
  ⟨decision, explanation⟩

/-- C7: `evaluate_mfa` returns Allow exactly when knowledge and possession are
present and a DNA-like factor with confidence at least 0.9 is present;
RequireAdditionalFactors exactly when knowledge and possession are present but
no such factor is (absent, or confidence not at least 0.9); Deny exactly when
knowledge or possession is missing. -/
theorem c7_mfa_decision_table (ctx : MultiLayerContext) :
    ((evaluate_mfa ctx).decision = AuthDecision.Allow ↔
      (ctx.knowledge.present = true ∧ ctx.possession.present = true ∧
        ∃ d : DnaFactor, ctx.dna = some d ∧ ((F32.fin (9/10)).le d.confidence) = true)) ∧
    ((evaluate_mfa ctx).decision = AuthDecision.RequireAdditionalFactors ↔
      (ctx.knowledge.present = true ∧ ctx.possession.present = true ∧
        ¬ ∃ d : DnaFactor, ctx.dna = some d ∧ ((F32.fin (9/10)).le d.confidence) = true)) ∧
    ((evaluate_mfa ctx).decision = AuthDecision.Deny ↔
      ¬ (ctx.knowledge.present = true ∧ ctx.possession.present = true)) := by
  rcases ctx with ⟨⟨k⟩, ⟨p⟩, _ | d⟩
  · cases k <;> cases p <;> simp [evaluate_mfa]
  · cases k <;> cases p <;>
      cases hc : ((F32.fin (9/10)).le d.confidence) <;>
        simp [evaluate_mfa, hc]

/-! ## facecloud-dna-auth/src/policy.rs -/

/-- Compliance flags carried by the policy (not read by the verdict logic). -/
structure ComplianceFlags where
  gdpr : Bool
  iso27001 : Bool
  soc2 : Bool
deriving DecidableEq

/-- Access policy flags. -/
structure AccessPolicy where
  role_based_access : Bool
  access_logging : Bool
  data_minimization : Bool
  lawful_processing : Bool
  compliance : ComplianceFlags
deriving DecidableEq

/-- Verdict: the allow flag plus accumulated reason strings. -/
structure PolicyVerdict where
  allowed : Bool
  reasons : List String
deriving DecidableEq

/-- `evaluate_policy`: `allowed` comes from the auth decision alone; each
false policy flag appends its reason string (a `Vec::push` in the source,
modelled as list append). -/
def evaluate_policy (auth : AuthEvaluation) (policy : AccessPolicy) : PolicyVerdict :=
  let base : Bool × List String :=
    match auth.decision with
    | AuthDecision.Allow => (true, [])
    | AuthDecision.RequireAdditionalFactors =>
      (false, ["Additional authentication factors required."])
    | AuthDecision.Deny => (false, ["Authentication decision = Deny."])
  let reasons1 := if policy.role_based_access then base.2
    else base.2 ++ ["Role-based access control disabled; policy expects RBAC."]
  let reasons2 := if policy.access_logging then reasons1
    else reasons1 ++ ["Access logging disabled; policy expects full audit trail."]
  let reasons3 := if policy.data_minimization then reasons2
    else reasons2 ++ ["Data minimization not enforced."]
  let reasons4 := if policy.lawful_processing then reasons3
    else reasons3 ++ ["Lawful processing flag is false."]
  ⟨base.1, reasons4⟩

/-- C8: the verdict's `allowed` equals `auth.decision == Allow` for every
policy, so no false compliance flag ever flips it; each false flag only
appends its reason string to the verdict. -/
theorem c8_policy_verdict (auth : AuthEvaluation) (policy : AccessPolicy) :
    ((evaluate_policy auth policy).allowed = true ↔ auth.decision = AuthDecision.Allow) ∧
    (policy.role_based_access = false →
      ("Role-based access control disabled; policy expects RBAC.")
        ∈ (evaluate_policy auth policy).reasons) ∧
    (policy.access_logging = false →
      ("Access logging disabled; policy expects full audit trail.")
        ∈ (evaluate_policy auth policy).reasons) ∧
    (policy.data_minimization = false →
      ("Data minimization not enforced.") ∈ (evaluate_policy auth policy).reasons) ∧
    (policy.lawful_processing = false →
      ("Lawful processing flag is false.") ∈ (evaluate_policy auth policy).reasons) := by
  rcases auth with ⟨dec, ex⟩
  rcases policy with ⟨rb, al, dm, lp, cf⟩
  cases dec <;> cases rb <;> cases al <;> cases dm <;> cases lp <;>
    simp [evaluate_policy]

/-! ## facecloud-core/src/safety/guard.rs
`Uuid::new_v4()` draws a fresh random identifier.  It is modelled as an
explicit `fresh_id` argument supplied by the caller: the only
non-deterministic input of the whole kernel. -/

/-- Recommendation record returned per telemetry sample. -/
structure GuardRecommendation where
  id : Nat
  evaluation : EnvelopeEvaluation
  message : String
  recommended_action : String
deriving DecidableEq

/-- Wrapper holding the envelope config. -/
structure GuardKernel where
  config : EnvelopeConfig
deriving DecidableEq

/-- `GuardKernel::evaluate`: runs the envelope evaluation and attaches the
fixed message/action pair keyed by status, plus the fresh identifier. -/
def GuardKernel.evaluate (k : GuardKernel) (telemetry : InterfaceTelemetry)
    (fresh_id : Nat) : GuardRecommendation :=
  let eval := k.config.evaluate telemetry
  let pair : String × String :=
    match eval.status with
    | EnvelopeStatus.Safe =>
      ("Within safety envelope.",
       "Maintain current parameters; continue monitoring.")
    | EnvelopeStatus.Caution =>
      ("CAUTION_SCALE_THRESHOLD_APPROACHED",
       "Do not increase integration density or field intensity; prefer down-scaling or simulations only.")
    | EnvelopeStatus.HardDeny =>
      ("HARD_DENY: envelope breached.",
       "Reduce load, density, and exposure in models; consult safety governance before any further scaling.")
  ⟨fresh_id, eval, pair.1, pair.2⟩

/-- C9: every evaluator is deterministic — each is a pure function of its
inputs in this embedding (the Rust functions perform no I/O and read no
state), so two invocations on identical inputs agree; for the guard kernel,
whose only non-deterministic input is the generated identifier, the two
evaluations agree on everything except possibly that identifier. -/
theorem c9_evaluators_deterministic (cfg : EnvelopeConfig) (tel : InterfaceTelemetry)
    (k : GuardKernel) (u1 u2 : Nat) (m : IndigenousEcoCorridorMap)
    (r : CorridorActionRequest) (ctx : MultiLayerContext) (auth : AuthEvaluation)
    (policy : AccessPolicy) :
    (cfg.evaluate tel = cfg.evaluate tel) ∧
    (m.check_preconditions r = m.check_preconditions r) ∧
    (evaluate_mfa ctx = evaluate_mfa ctx) ∧
    (evaluate_policy auth policy = evaluate_policy auth policy) ∧
    ((k.evaluate tel u1).evaluation = (k.evaluate tel u2).evaluation) ∧
    ((k.evaluate tel u1).message = (k.evaluate tel u2).message) ∧
    ((k.evaluate tel u1).recommended_action = (k.evaluate tel u2).recommended_action) :=
  ⟨rfl, rfl, rfl, rfl, rfl, rfl, rfl⟩

/-! ## morpheus-neuromorph/crates/eco-corridor-core/src/lib.rs -/

namespace Morpheus

/-- Eco-impact metrics of the third ("morpheus") corridor model: plain public
f32 fields, no constrained scalar type. -/
structure EcoImpactMetrics where
  soil_score : F32
  water_score : F32
  microbiome_score : F32
  biodiversity_score : F32
deriving DecidableEq

/-- The local `clamp01` helper inside `EcoImpactMetrics::new`: the source's
hand-written if-chain.  A NaN input fails both comparisons and is returned
unchanged. -/
def clamp01 (x : F32) : F32 :=
  if x.lt (F32.fin 0) then F32.fin 0
  else if (F32.fin 1).lt x then F32.fin 1
  else x

/-- `EcoImpactMetrics::new`: clamps each component and never fails. -/
def EcoImpactMetrics.new (soil water micro bio : F32) : EcoImpactMetrics :=
  ⟨clamp01 soil, clamp01 water, clamp01 micro, clamp01 bio⟩

/-- `EcoImpactMetrics::aggregate`: the unclamped arithmetic mean of the four
components. -/
def EcoImpactMetrics.aggregate (m : EcoImpactMetrics) : F32 :=
  (((m.soil_score.add m.water_score).add m.microbiome_score).add
    m.biodiversity_score).div (F32.fin 4)

/-- Clamping a finite value lands in 0.0 to 1.0. -/
theorem clamp01_fin_mem (q : ℚ) :
    ∃ p : ℚ, clamp01 (F32.fin q) = F32.fin p ∧ 0 ≤ p ∧ p ≤ 1 := by
  simp only [clamp01, F32.lt, decide_eq_true_eq]
  split_ifs with h1 h2
  · exact ⟨0, rfl, le_refl 0, by norm_num⟩
  · exact ⟨1, rfl, by norm_num, le_refl 1⟩
  · exact ⟨q, rfl, by linarith, by linarith⟩

end Morpheus

/-- C10 (counterexample): a NaN sensor value is not clamped into 0.0 to 1.0 —
`EcoImpactMetrics::new` stores it unchanged (NaN fails both comparisons of
the clamp), the stored component is not in the range, and the aggregate of
the constructed value is NaN rather than a value in the range. -/
theorem c10_nan_counterexample :
    (Morpheus.EcoImpactMetrics.new F32.nan (F32.fin 0) (F32.fin 0) (F32.fin 0)).soil_score
      = F32.nan ∧
    ((F32.fin 0).le
      (Morpheus.EcoImpactMetrics.new F32.nan (F32.fin 0) (F32.fin 0) (F32.fin 0)).soil_score)
      = false ∧
    (Morpheus.EcoImpactMetrics.new F32.nan (F32.fin 0) (F32.fin 0) (F32.fin 0)).aggregate
      = F32.nan := by
  refine ⟨rfl, rfl, ?_⟩
  simp [Morpheus.EcoImpactMetrics.new, Morpheus.EcoImpactMetrics.aggregate,
    Morpheus.clamp01, F32.lt, F32.add, F32.div]

/-- C10 (amended): `EcoImpactMetrics::new` never fails, silently clamps every
finite (non-NaN) component into 0.0 to 1.0, and for finite inputs the
aggregate (the arithmetic mean of the four components) also lies in
0.0 to 1.0; a NaN component, however, is passed through un-clamped. -/
theorem c10_finite_inputs_clamped (a b c d : ℚ) :
    ∃ qa qb qc qd g : ℚ,
      (Morpheus.EcoImpactMetrics.new (F32.fin a) (F32.fin b) (F32.fin c) (F32.fin d)).soil_score
        = F32.fin qa ∧ 0 ≤ qa ∧ qa ≤ 1 ∧
      (Morpheus.EcoImpactMetrics.new (F32.fin a) (F32.fin b) (F32.fin c) (F32.fin d)).water_score
        = F32.fin qb ∧ 0 ≤ qb ∧ qb ≤ 1 ∧
      (Morpheus.EcoImpactMetrics.new (F32.fin a) (F32.fin b) (F32.fin c) (F32.fin d)).microbiome_score
        = F32.fin qc ∧ 0 ≤ qc ∧ qc ≤ 1 ∧
      (Morpheus.EcoImpactMetrics.new (F32.fin a) (F32.fin b) (F32.fin c) (F32.fin d)).biodiversity_score
        = F32.fin qd ∧ 0 ≤ qd ∧ qd ≤ 1 ∧
      (Morpheus.EcoImpactMetrics.new (F32.fin a) (F32.fin b) (F32.fin c) (F32.fin d)).aggregate
        = F32.fin g ∧ 0 ≤ g ∧ g ≤ 1 := by
  obtain ⟨qa, ha, ha0, ha1⟩ := Morpheus.clamp01_fin_mem a
  obtain ⟨qb, hb, hb0, hb1⟩ := Morpheus.clamp01_fin_mem b
  obtain ⟨qc, hc, hc0, hc1⟩ := Morpheus.clamp01_fin_mem c
  obtain ⟨qd, hd, hd0, hd1⟩ := Morpheus.clamp01_fin_mem d
  refine ⟨qa, qb, qc, qd, (qa + qb + qc + qd) / 4, ?_, ha0, ha1, ?_, hb0, hb1,
    ?_, hc0, hc1, ?_, hd0, hd1, ?_, ?_, ?_⟩
  · simpa [Morpheus.EcoImpactMetrics.new] using ha
  · simpa [Morpheus.EcoImpactMetrics.new] using hb
  · simpa [Morpheus.EcoImpactMetrics.new] using hc
  · simpa [Morpheus.EcoImpactMetrics.new] using hd
  · simp [Morpheus.EcoImpactMetrics.new, Morpheus.EcoImpactMetrics.aggregate,
      ha, hb, hc, hd, F32.add, F32.div]
  · positivity
  · rw [div_le_one (by norm_num)]
    linarith
